import Mathlib

/-!
Verification development for the `stomp_ws` STOMP-over-WebSocket client
(`stomp_ws/client.py`).  The Python client is shallowly embedded: the
mutable `Client` object becomes an explicit `ClientState` record, Python
dicts become association lists with unique keys, each method becomes a
state-passing function returning the new state, the list of observable
events (frames handed to the transport's `send`, callbacks invoked,
transport closed), and an optional raised exception.
-/

namespace StompWs

/-- Header mappings / registries: a Python `dict` as an association list
(insertion ordered, keys unique by construction of the operations). -/
abbrev Dict (α : Type) := List (String × α)

abbrev Headers := Dict String

/-- Python `m[k]` lookup: value at the first occurrence of key `k`. -/
def dictLookup {α : Type} : Dict α → String → Option α
  | [], _ => none
  | (k', v) :: rest, k => if k' == k then some v else dictLookup rest k

/-- Python `m[k] = v` assignment: replace the value at an existing key in place,
otherwise append the new binding (Python dict insertion order). -/
def dictSet {α : Type} : Dict α → String → α → Dict α
  | [], k, v => [(k, v)]
  | (k', v') :: rest, k, v =>
    if k' == k then (k, v) :: rest else (k', v') :: dictSet rest k v

/-- Python `k in m` membership test. -/
def dictContains {α : Type} (m : Dict α) (k : String) : Bool :=
  (dictLookup m k).isSome

/-- Python `del m[k]`: drop the binding at key `k` (the first occurrence). -/
def dictDel {α : Type} (m : Dict α) (k : String) : Dict α :=
  m.eraseP (fun p => p.1 == k)

/-- A STOMP frame: command, header mapping, optional body
(`stomp_ws/frame.py`'s `Frame`). -/
structure Frame where
  command : String
  headers : Headers
  body : Option String
deriving DecidableEq

/-- Splits a character sequence at every newline. -/
def splitLines : List Char → List (List Char)
  | [] => [[]]
  | c :: rest =>
    let r := splitLines rest
    if c = '\n' then [] :: r
    else
      match r with
      | [] => [[c]]
      | l :: ls => (c :: l) :: ls

/-- Splitting a header line on the first colon.
Modelled from the spec: `frame.py` is not among the provided sources; the
spec (§4.1 Unmarshal) says header lines are split on the first `:` into
`(key, value)`. -/
def splitHeaderLine : List Char → List Char × List Char
  | [] => ([], [])
  | c :: rest =>
    if c = ':' then ([], rest)
    else
      let r := splitHeaderLine rest
      (c :: r.1, r.2)

/-- Joins lines back with newlines. -/
def joinLines : List (List Char) → List Char
  | [] => []
  | [l] => l
  | l :: ls => l ++ '\n' :: joinLines ls

/-- Strips one trailing NUL byte if present. -/
def dropTrailingNul (cs : List Char) : List Char :=
  match cs.getLast? with
  | some c => if c = '\x00' then cs.dropLast else cs
  | none => cs

/-- Modelled from the spec: `Frame.unmarshall_single` lives in
`stomp_ws/frame.py`, which is not among the provided sources.  Per the
spec (§4.1 Unmarshal): the first line is the command token, subsequent
lines up to the first blank line are header lines (split on the first
colon, later duplicate keys overwrite earlier ones), and the remaining
content minus a trailing NUL is the body. -/
def Frame.unmarshall_single (message : String) : Frame :=
  let lines := splitLines message.data
  let command := (lines.headD []).asString
  let rest := lines.tail
  let headerLines := rest.takeWhile (fun l => !l.isEmpty)
  let headers := headerLines.foldl
    (fun m l =>
      dictSet m (splitHeaderLine l).1.asString (splitHeaderLine l).2.asString)
    []
  let bodyLines := (rest.dropWhile (fun l => !l.isEmpty)).tail
  let body := (dropTrailingNul (joinLines bodyLines)).asString
  { command := command, headers := headers, body := some body }

/-- The observable effects of one client operation, in order of
occurrence: frames handed to `self.ws.send` (via `_transmit`), a raw
message handed to `Frame.unmarshall_single`, callbacks invoked, the
transport closed. -/
inductive Event where
  | sent (command : String) (headers : Headers) (body : Option String)
  | parsed (f : Frame)
  | pingCb (cb : Nat) (message : String)
  | connectCb (cb : Nat) (f : Frame)
  | errorCb (cb : Nat) (f : Frame)
  | invoked (cb : Nat) (f : Frame)
  | unhandled (f : Frame)
  | unhandledCommand (command : String)
  | wsClosed
  | disconnectCb (cb : Nat)
deriving DecidableEq

/-- Does the event transmit a frame with the given command? -/
def Event.isSentCmd (c : String) : Event → Bool
  | .sent c' _ _ => c' == c
  | _ => false

/-- The mutable fields of `Client` (`client.py` `__init__`).  Callback
functions are represented by opaque `Nat` handles (`none` = Python
`None` / attribute never assigned). -/
structure ClientState where
  url : String
  opened : Bool
  connected : Bool
  counter : Nat
  subscriptions : Dict Nat
  connectCallback : Option Nat
  errorCallback : Option Nat
  pingCallback : Option Nat
deriving DecidableEq

/-- State of a fresh `Client(url)`. -/
def ClientState.init (url : String) : ClientState :=
  { url := url, opened := false, connected := false, counter := 0,
    subscriptions := [], connectCallback := none, errorCallback := none,
    pingCallback := none }

/-- Result of running one client operation: the state at the point the
operation returned (or raised), the events it produced before that
point, and the raised exception if any. -/
structure StepResult where
  state : ClientState
  events : List Event
  err : Option String
deriving DecidableEq

/-- The polling loop of `_connect` (client.py lines 50-55) in the run
where the transport never signals open, error or close, so `self.opened`
stays `False` forever.  One fuel unit is one loop iteration (one
`time.sleep(.25)`); `total` is the running `total_ms` counter.  The
result is `some t` when the loop raises `TimeoutError` with
`total_ms = t`, and `none` when the fuel runs out with the loop still
spinning. -/
def connectWait (timeout : Nat) : Nat → Nat → Option Nat
  | 0, _ => none
  | fuel + 1, total =>
    let total' := total + 250
    if 0 < timeout ∧ timeout < total' then some total'
    else connectWait timeout fuel total'

/-- Model of `_on_open` (client.py line 57): mark the transport opened. -/
def on_open (st : ClientState) : ClientState :=
  { st with opened := true }

/-- Model of `_on_error` (client.py line 68): if `opened` was never set, set it
(unblocking a pending `_connect`); the error is only logged. -/
def on_error (st : ClientState) : ClientState :=
  { st with opened := true }

/-- Model of `_clean_up` (client.py line 177). -/
def clean_up (st : ClientState) : ClientState :=
  { st with connected := false }

/-- Model of `_on_close` (client.py line 60): set `opened` if it never was, reset
`connected`, then `_clean_up`. -/
def on_close (st : ClientState) : ClientState :=
  clean_up { st with opened := true, connected := false }

/-- Model of the `_on_message` dispatch of a parsed frame (client.py lines 90-131,
the part after the heartbeat check and `Frame.unmarshall_single`). -/
def dispatchFrame (st : ClientState) (frame : Frame) : StepResult :=
  if frame.command == "CONNECTED" then
    let st' := { st with connected := true }
    match st.connectCallback with
    | some cb => { state := st', events := [.connectCb cb frame], err := none }
    | none => { state := st', events := [], err := none }
  else if frame.command == "MESSAGE" then
    match dictLookup frame.headers "subscription" with
    | none =>
      { state := st, events := [], err := some "KeyError: subscription" }
    | some subscription =>
      match dictLookup st.subscriptions subscription with
      | some onreceive =>
        match dictLookup frame.headers "message-id" with
        | none =>
          { state := st, events := [], err := some "KeyError: message-id" }
        | some _ =>
          { state := st, events := [.invoked onreceive frame], err := none }
      | none =>
        { state := st, events := [.unhandled frame], err := none }
  else if frame.command == "RECEIPT" then
    { state := st, events := [], err := none }
  else if frame.command == "ERROR" then
    match st.errorCallback with
    | some cb => { state := st, events := [.errorCb cb frame], err := none }
    | none => { state := st, events := [], err := none }
  else
    { state := st, events := [.unhandledCommand frame.command], err := none }

/-- Model of `_on_message` (client.py lines 81-131): a message equal to exactly
`"\n"` is an incoming heartbeat handed to `self.pingCallback` (Python
raises `TypeError` when that attribute is `None`, and `AttributeError`
when `connect` was never called; both are modelled as the `none` case);
any other message is unmarshalled and dispatched on its command. -/
def on_message (st : ClientState) (message : String) : StepResult :=
  if message == "\n" then
    match st.pingCallback with
    | some cb => { state := st, events := [.pingCb cb message], err := none }
    | none =>
      { state := st, events := [],
        err := some "TypeError: NoneType object is not callable" }
  else
    let frame := Frame.unmarshall_single message
    let r := dispatchFrame st frame
    { r with events := .parsed frame :: r.events }

/-- The `accept-version` constant (client.py line 9). -/
def VERSIONS : String := "1.0,1.1,1.2"

/-- The header mutations `connect` performs on the caller-supplied
headers dict (client.py lines 145-153).  `ping_interval` is the
`connect` argument of the same name (seconds). -/
def connectHeaders (url : String) (login passcode host : Option String)
    (headers : Headers) (ping_interval : Nat) : Headers :=
  let h := dictSet headers "host" (host.getD url)
  let h := dictSet h "accept-version" VERSIONS
  let h := dictSet h "heart-beat"
    (Nat.repr (ping_interval * 1000) ++ "," ++ Nat.repr (ping_interval * 1000))
  let h := match login with
    | some l => dictSet h "login" l
    | none => h
  match passcode with
  | some p => dictSet h "passcode" p
  | none => h

/-- Model of `connect` (client.py lines 138-159) after `_connect` has returned
(the transport signalled open): build the CONNECT headers, store the
three callbacks, transmit the CONNECT frame. -/
def connect (st : ClientState) (login passcode host : Option String)
    (headers : Headers) (ccb ecb pcb : Option Nat) (ping_interval : Nat) :
    StepResult :=
  let hs := connectHeaders st.url login passcode host headers ping_interval
  let st' := { st with connectCallback := ccb, errorCallback := ecb, pingCallback := pcb }
  { state := st', events := [.sent "CONNECT" hs none], err := none }

/-- The header mutation `send` performs (client.py line 185). -/
def sendHeaders (destination : String) (headers : Headers) : Headers :=
  dictSet headers "destination" destination

/-- Model of `send` (client.py lines 180-186). -/
def send (st : ClientState) (destination : String) (headers : Headers)
    (body : String) : StepResult :=
  { state := st, events := [.sent "SEND" (sendHeaders destination headers) (some body)],
    err := none }

/-- The header mutations `subscribe` performs on the caller-supplied
dict (client.py lines 191-194): mint an `id` from the counter when the
caller supplied none, then set `destination`. -/
def subscribeHeaders (counter : Nat) (destination : String)
    (headers : Headers) : Headers :=
  let h := if dictContains headers "id" then headers
    else dictSet headers "id" ("sub-" ++ Nat.repr counter)
  dictSet h "destination" destination

/-- Model of `subscribe` (client.py lines 188-201): returns the step result, the
mutated headers dict, and the subscription id `headers["id"]`. -/
def subscribe (st : ClientState) (destination : String) (callback : Nat)
    (headers : Headers) : StepResult × Headers × String :=
  let h := subscribeHeaders st.counter destination headers
  let counter' := if dictContains headers "id" then st.counter
    else st.counter + 1
  let id := (dictLookup h "id").getD ""
  let st' := { st with counter := counter', subscriptions := dictSet st.subscriptions id callback }
  ({ state := st', events := [.sent "SUBSCRIBE" h none], err := none }, h, id)

/-- Model of `unsubscribe` (client.py lines 203-207): `del self.subscriptions[id]`
raises `KeyError` when the id is absent (before anything is
transmitted); otherwise the entry is removed and an UNSUBSCRIBE frame
carrying that id is transmitted. -/
def unsubscribe (st : ClientState) (id : String) : StepResult :=
  if dictContains st.subscriptions id then
    { state := { st with subscriptions := dictDel st.subscriptions id },
      events := [.sent "UNSUBSCRIBE" [("id", id)] none], err := none }
  else
    { state := st, events := [], err := some "KeyError" }

/-- The `for id in subscription_ids: self.unsubscribe(id)` loop of
`disconnect` (client.py lines 165-167), aborting at the first raised
exception. -/
def unsubAll (st : ClientState) : List String → StepResult
  | [] => { state := st, events := [], err := none }
  | id :: rest =>
    let r := unsubscribe st id
    match r.err with
    | some e => { state := r.state, events := r.events, err := some e }
    | none =>
      let r' := unsubAll r.state rest
      { state := r'.state, events := r.events ++ r'.events, err := r'.err }

/-- Model of `disconnect` (client.py lines 161-175): unsubscribe a snapshot of
every active subscription id, transmit DISCONNECT, close the transport
(with its close notification suppressed via `ws.on_close = None`),
`_clean_up`, then invoke the disconnect callback if provided. -/
def disconnect (st : ClientState) (disconnectCallback : Option Nat)
    (headers : Headers) : StepResult :=
  let snapshot := st.subscriptions.map Prod.fst
  let r := unsubAll st snapshot
  match r.err with
  | some e => { state := r.state, events := r.events, err := some e }
  | none =>
    { state := clean_up r.state,
      events := r.events ++ [.sent "DISCONNECT" headers none, .wsClosed] ++
        (match disconnectCallback with
         | some cb => [.disconnectCb cb]
         | none => []),
      err := none }

/-- The header mutations `ack` and `nack` perform (client.py lines
212-213 and 219-220): unconditionally overwrite `message-id` and
`subscription`. -/
def ackHeaders (message_id subscription : String) (headers : Headers) :
    Headers :=
  dictSet (dictSet headers "message-id" message_id) "subscription" subscription

/-- Model of `ack` (client.py lines 209-214). -/
def ack (st : ClientState) (message_id subscription : String)
    (headers : Headers) : StepResult :=
  { state := st,
    events := [.sent "ACK" (ackHeaders message_id subscription headers) none],
    err := none }

/-- Model of `nack` (client.py lines 216-221). -/
def nack (st : ClientState) (message_id subscription : String)
    (headers : Headers) : StepResult :=
  { state := st,
    events := [.sent "NACK" (ackHeaders message_id subscription headers) none],
    err := none }

/-- Model of `subscribe` iterated over a list of `(destination, callback)` pairs,
each call with a fresh empty headers dict (no caller-supplied `id`);
returns the final state and the minted ids in call order. -/
def subscribeSeq (st : ClientState) :
    List (String × Nat) → ClientState × List String
  | [] => (st, [])
  | (d, cb) :: rest =>
    let r := subscribe st d cb []
    let r' := subscribeSeq r.1.state rest
    (r'.1, r.2.2 :: r'.2)

/-- One transition of the client: a transport lifecycle callback, an
inbound heartbeat, the dispatch of an inbound frame, or a public
operation. -/
inductive Op where
  | opOnOpen
  | opOnError
  | opOnClose
  | opHeartbeat
  | opDispatch (f : Frame)
  | opConnect (login passcode host : Option String) (headers : Headers)
      (ccb ecb pcb : Option Nat) (ping_interval : Nat)
  | opDisconnect (cb : Option Nat) (headers : Headers)
  | opSend (destination : String) (headers : Headers) (body : String)
  | opSubscribe (destination : String) (cb : Nat) (headers : Headers)
  | opUnsubscribe (id : String)
  | opAck (mid sub : String) (headers : Headers)
  | opNack (mid sub : String) (headers : Headers)

/-- The state reached by one transition (for a raising operation, the
state at the point of the raise). -/
def step (st : ClientState) : Op → ClientState
  | .opOnOpen => on_open st
  | .opOnError => on_error st
  | .opOnClose => on_close st
  | .opHeartbeat => (on_message st "\n").state
  | .opDispatch f => (dispatchFrame st f).state
  | .opConnect login passcode host headers ccb ecb pcb p =>
    (connect st login passcode host headers ccb ecb pcb p).state
  | .opDisconnect cb headers => (disconnect st cb headers).state
  | .opSend d headers body => (send st d headers body).state
  | .opSubscribe d cb headers => (subscribe st d cb headers).1.state
  | .opUnsubscribe id => (unsubscribe st id).state
  | .opAck mid sub headers => (ack st mid sub headers).state
  | .opNack mid sub headers => (nack st mid sub headers).state

/-- Reads the decimal digit characters produced by `Nat.toDigitsCore`
back into the number they denote. -/
def decodeDigits (cs : List Char) : Nat :=
  cs.foldl (fun a c => a * 10 + (c.toNat - 48)) 0

end StompWs

namespace StompWs

theorem connectWait_raises (T : Nat) (hT : 0 < T) :
    ∀ fuel total, total ≤ T → T < total + 250 * fuel →
      ∃ t, connectWait T fuel total = some t ∧ T < t ∧ t ≤ T + 250 := by
  intro fuel
  induction fuel with
  | zero => intro total h1 h2; omega
  | succ f ih =>
    intro total h1 h2
    by_cases hc : T < total + 250
    · exact ⟨total + 250, by simp [connectWait, hT, hc], hc, by omega⟩
    · have h1' : total + 250 ≤ T := by omega
      obtain ⟨t, ht, hlt, hle⟩ := ih (total + 250) h1' (by omega)
      exact ⟨t, by simp only [connectWait]; rw [if_neg (by omega)]; exact ht,
        hlt, hle⟩

theorem connectWait_zero_timeout :
    ∀ fuel total, connectWait 0 fuel total = none := by
  intro fuel
  induction fuel with
  | zero => intro total; rfl
  | succ f ih =>
    intro total
    simp only [connectWait]
    rw [if_neg (by omega)]
    exact ih (total + 250)

theorem dictLookup_dictSet_self {α : Type} (m : Dict α) (k : String) (v : α) :
    dictLookup (dictSet m k v) k = some v := by
  induction m with
  | nil => simp [dictSet, dictLookup]
  | cons p rest ih =>
    by_cases h : p.1 = k
    · simp [dictSet, dictLookup, h]
    · simp [dictSet, dictLookup, h, ih]

theorem dictLookup_dictSet_ne {α : Type} (m : Dict α) (k' k : String) (v : α)
    (h : k' ≠ k) : dictLookup (dictSet m k' v) k = dictLookup m k := by
  induction m with
  | nil => simp [dictSet, dictLookup, h]
  | cons p rest ih =>
    by_cases hp : p.1 = k'
    · simp [dictSet, dictLookup, hp, h]
    · simp only [dictSet, beq_iff_eq, hp, if_false, dictLookup]
      by_cases hk : p.1 = k
      · simp [hk]
      · simp [hk, ih]

theorem dictLookup_dictDel_ne {α : Type} (m : Dict α) (k' k : String)
    (h : k' ≠ k) : dictLookup (dictDel m k') k = dictLookup m k := by
  induction m with
  | nil => simp [dictDel, dictLookup]
  | cons p rest ih =>
    by_cases hp : p.1 = k'
    · have hk : ¬p.1 = k := by rw [hp]; exact h
      simp [dictDel, List.eraseP_cons, hp, dictLookup, hk, h]
    · simp only [dictDel, List.eraseP_cons] at ih ⊢
      rw [show (p.1 == k') = false by simp [hp]]
      by_cases hk : p.1 = k
      · simp [dictLookup, hk]
      · simp [dictLookup, hk, ih]

theorem dictLookup_not_mem {α : Type} (m : Dict α) (k : String)
    (hk : k ∉ m.map Prod.fst) : dictLookup m k = none := by
  induction m with
  | nil => rfl
  | cons p rest ih =>
    simp only [List.map_cons, List.mem_cons, not_or] at hk
    simp only [dictLookup, beq_iff_eq]
    rw [if_neg (fun hq => hk.1 hq.symm)]
    exact ih hk.2

theorem dictLookup_dictDel_self {α : Type} (m : Dict α) (k : String)
    (hnd : (m.map Prod.fst).Nodup) : dictLookup (dictDel m k) k = none := by
  induction m with
  | nil => simp [dictDel, dictLookup]
  | cons p rest ih =>
    simp only [List.map_cons, List.nodup_cons] at hnd
    by_cases hp : p.1 = k
    · simp only [dictDel, List.eraseP_cons, hp, beq_self_eq_true, cond_true]
      exact dictLookup_not_mem rest k (hp ▸ hnd.1)
    · simp only [dictDel, List.eraseP_cons]
      rw [show (p.1 == k) = false by simp [hp]]
      simp only [dictLookup, beq_iff_eq, hp, if_false]
      exact ih hnd.2

theorem toDigitsCore_shift :
    ∀ n fuel acc, n < fuel →
      Nat.toDigitsCore 10 fuel n acc = Nat.toDigitsCore 10 fuel n [] ++ acc := by
  intro n
  induction n using Nat.strong_induction_on with
  | _ n ih =>
    intro fuel acc hf
    cases fuel with
    | zero => omega
    | succ f =>
      simp only [Nat.toDigitsCore]
      by_cases h0 : n / 10 = 0
      · simp [h0]
      · rw [if_neg h0, if_neg h0]
        have hlt : n / 10 < n := by omega
        have h1 : n / 10 < f := by omega
        rw [ih _ hlt f (Nat.digitChar (n % 10) :: acc) h1,
            ih _ hlt f [Nat.digitChar (n % 10)] h1, List.append_assoc,
            List.singleton_append]

theorem toDigitsCore_fuel :
    ∀ n f1 f2 acc, n < f1 → n < f2 →
      Nat.toDigitsCore 10 f1 n acc = Nat.toDigitsCore 10 f2 n acc := by
  intro n
  induction n using Nat.strong_induction_on with
  | _ n ih =>
    intro f1 f2 acc h1 h2
    cases f1 with
    | zero => omega
    | succ g1 =>
      cases f2 with
      | zero => omega
      | succ g2 =>
        simp only [Nat.toDigitsCore]
        by_cases h0 : n / 10 = 0
        · simp [h0]
        · rw [if_neg h0, if_neg h0]
          exact ih _ (by omega) g1 g2 _ (by omega) (by omega)

theorem decodeDigits_append (xs ys : List Char) :
    decodeDigits (xs ++ ys) =
      ys.foldl (fun a c => a * 10 + (c.toNat - 48)) (decodeDigits xs) := by
  simp [decodeDigits, List.foldl_append]

theorem decodeDigits_toDigits (n : Nat) :
    decodeDigits (Nat.toDigits 10 n) = n := by
  induction n using Nat.strong_induction_on with
  | _ n ih =>
    by_cases h0 : n / 10 = 0
    · have hn : n < 10 := by omega
      interval_cases n <;> rfl
    · have hsplit : Nat.toDigits 10 n
          = Nat.toDigits 10 (n / 10) ++ [Nat.digitChar (n % 10)] := by
        simp only [Nat.toDigits, Nat.toDigitsCore]
        rw [if_neg h0,
          toDigitsCore_shift (n / 10) n [Nat.digitChar (n % 10)] (by omega),
          toDigitsCore_fuel (n / 10) n (n / 10 + 1) [] (by omega) (by omega)]
        simp only [Nat.toDigitsCore]
      rw [hsplit, decodeDigits_append, ih (n / 10) (by omega)]
      show (n / 10) * 10 + ((Nat.digitChar (n % 10)).toNat - 48) = n
      have hchar : (Nat.digitChar (n % 10)).toNat - 48 = n % 10 := by
        have h9 : n % 10 < 10 := Nat.mod_lt _ (by omega)
        set m := n % 10 with hm
        clear_value m
        interval_cases m <;> rfl
      omega

theorem natRepr_injective : Function.Injective Nat.repr := by
  intro m n h
  have hd : Nat.toDigits 10 m = Nat.toDigits 10 n := by
    have h2 := congrArg String.data h
    simpa [Nat.repr, List.asString] using h2
  have h3 := congrArg decodeDigits hd
  simpa [decodeDigits_toDigits] using h3

theorem subId_injective :
    Function.Injective (fun i : Nat => "sub-" ++ Nat.repr i) := by
  intro m n h
  apply natRepr_injective
  apply String.ext
  have h2 := congrArg String.data h
  simp only [String.data_append] at h2
  exact List.append_cancel_left h2

theorem unsubAll_snapshot (subs : Dict Nat) :
    ∀ st : ClientState, st.subscriptions = subs →
      (subs.map Prod.fst).Nodup →
      unsubAll st (subs.map Prod.fst) =
        StepResult.mk { st with subscriptions := [] }
          (subs.map (fun p => Event.sent "UNSUBSCRIBE" [("id", p.1)] none))
          none := by
  induction subs with
  | nil =>
    intro st hs _
    cases st
    simp only at hs
    simp [unsubAll, hs]
  | cons p rest ih =>
    intro st hs hnd
    simp only [List.map_cons, List.nodup_cons] at hnd
    have hcont : dictContains st.subscriptions p.1 = true := by
      simp [dictContains, hs, dictLookup]
    have hdel : dictDel st.subscriptions p.1 = rest := by
      simp [hs, dictDel, List.eraseP_cons]
    simp only [List.map_cons, unsubAll, unsubscribe, hcont, if_true, hdel]
    rw [ih { st with subscriptions := rest } rfl hnd.2]
    simp

theorem filter_isSentCmd_map (subs : Dict Nat) (c : String) :
    ((subs.map (fun p => Event.sent c [("id", p.1)] none)).filter
      (Event.isSentCmd c)).length = subs.length := by
  induction subs with
  | nil => rfl
  | cons p rest ih => simp [Event.isSentCmd, ih]

/-- C2: on a registry holding `N` active subscriptions, `disconnect`
transmits exactly `N` UNSUBSCRIBE frames (one per subscription, each
carrying that subscription's id, in registry order), then one DISCONNECT
frame, empties the registry, resets `connected`, and invokes the
disconnect callback only after all of that (it is the last event). -/
theorem claim_c2_disconnect (st : ClientState) (cb : Nat) (hdrs : Headers)
    (hnd : (st.subscriptions.map Prod.fst).Nodup) :
    disconnect st (some cb) hdrs =
      StepResult.mk { st with subscriptions := [], connected := false }
        (st.subscriptions.map (fun p => Event.sent "UNSUBSCRIBE" [("id", p.1)] none)
          ++ [Event.sent "DISCONNECT" hdrs none, Event.wsClosed,
              Event.disconnectCb cb])
        none ∧
    ((disconnect st (some cb) hdrs).events.filter
      (Event.isSentCmd "UNSUBSCRIBE")).length = st.subscriptions.length ∧
    ((disconnect st (some cb) hdrs).events.filter
      (Event.isSentCmd "DISCONNECT")).length = 1 ∧
    (disconnect st (some cb) hdrs).events.getLast?
      = some (Event.disconnectCb cb) := by
  have h1 := unsubAll_snapshot st.subscriptions st rfl hnd
  have heq : disconnect st (some cb) hdrs =
      StepResult.mk { st with subscriptions := [], connected := false }
        (st.subscriptions.map (fun p => Event.sent "UNSUBSCRIBE" [("id", p.1)] none)
          ++ [Event.sent "DISCONNECT" hdrs none, Event.wsClosed,
              Event.disconnectCb cb])
        none := by
    simp [disconnect, h1, clean_up]
  refine ⟨heq, ?_, ?_, ?_⟩
  · rw [heq]
    simp only [List.filter_append, List.length_append, filter_isSentCmd_map]
    have : (List.filter (Event.isSentCmd "UNSUBSCRIBE")
        [Event.sent "DISCONNECT" hdrs none, Event.wsClosed,
         Event.disconnectCb cb]).length = 0 := rfl
    omega
  · rw [heq]
    simp only [List.filter_append, List.length_append]
    have hmap : ((st.subscriptions.map
        (fun p => Event.sent "UNSUBSCRIBE" [("id", p.1)] none)).filter
        (Event.isSentCmd "DISCONNECT")).length = 0 := by
      induction st.subscriptions with
      | nil => rfl
      | cons p rest ih => simpa [Event.isSentCmd] using ih
    have htail : (List.filter (Event.isSentCmd "DISCONNECT")
        [Event.sent "DISCONNECT" hdrs none, Event.wsClosed,
         Event.disconnectCb cb]).length = 1 := rfl
    omega
  · rw [heq]
    rw [List.getLast?_append]
    rfl

theorem claim_c2_disconnect_witness :
    disconnect
        ⟨"u", true, true, 3, [("sub-0", 1), ("sub-1", 2), ("sub-2", 3)],
          none, none, none⟩ (some 9) []
      = StepResult.mk ⟨"u", true, false, 3, [], none, none, none⟩
          [Event.sent "UNSUBSCRIBE" [("id", "sub-0")] none,
           Event.sent "UNSUBSCRIBE" [("id", "sub-1")] none,
           Event.sent "UNSUBSCRIBE" [("id", "sub-2")] none,
           Event.sent "DISCONNECT" [] none, Event.wsClosed,
           Event.disconnectCb 9] none :=
  (claim_c2_disconnect _ 9 [] (by decide)).1

theorem subscribe_fresh_id (st : ClientState) (d : String) (cb : Nat) :
    (subscribe st d cb []).2.2 = "sub-" ++ Nat.repr st.counter ∧
    (subscribe st d cb []).1.state.counter = st.counter + 1 := by
  constructor
  · simp [subscribe, subscribeHeaders, dictContains, dictLookup, dictSet]
  · simp [subscribe, dictContains, dictLookup]

theorem subscribeSeq_ids (calls : List (String × Nat)) :
    ∀ st : ClientState, (subscribeSeq st calls).2 =
      (List.range calls.length).map
        (fun i => "sub-" ++ Nat.repr (st.counter + i)) := by
  induction calls with
  | nil => intro st; rfl
  | cons c rest ih =>
    intro st
    obtain ⟨hid, hctr⟩ := subscribe_fresh_id st c.1 c.2
    simp only [subscribeSeq, List.length_cons, hid]
    rw [ih, hctr, List.range_succ_eq_map]
    simp only [List.map_cons, List.map_map, Nat.add_zero, List.cons.injEq]
    refine ⟨trivial, List.map_congr_left fun i _ => ?_⟩
    simp only [Function.comp_apply]
    congr 1
    congr 1
    omega

/-- C5: subscribe calls that do not supply an `id` header mint the ids
`sub-0`, `sub-1`, … in call order from a fresh client, the minted ids
are pairwise distinct (from any client state), and the dispatch of a
MESSAGE frame whose `subscription` header matches a registered id
invokes exactly the callback registered under that id and no other. -/
theorem claim_c5_ids_and_routing :
    (∀ url (calls : List (String × Nat)),
      (subscribeSeq (ClientState.init url) calls).2 =
        (List.range calls.length).map (fun i => "sub-" ++ Nat.repr i)) ∧
    (∀ (st : ClientState) (calls : List (String × Nat)),
      (subscribeSeq st calls).2.Nodup) ∧
    (∀ (st : ClientState) (f : Frame) (s mid : String) (cb : Nat),
      f.command = "MESSAGE" →
      dictLookup f.headers "subscription" = some s →
      dictLookup st.subscriptions s = some cb →
      dictLookup f.headers "message-id" = some mid →
      dispatchFrame st f = StepResult.mk st [Event.invoked cb f] none) := by
  refine ⟨?_, ?_, ?_⟩
  · intro url calls
    rw [subscribeSeq_ids]
    simp [ClientState.init]
  · intro st calls
    rw [subscribeSeq_ids]
    apply List.Nodup.map _ (List.nodup_range _)
    intro a b hab
    have h2 := subId_injective hab
    omega
  · intro st f s mid cb hcmd hs hcb hmid
    simp [dispatchFrame, hcmd, hs, hcb, hmid]

theorem claim_c5_ids_and_routing_witness :
    dispatchFrame
        ⟨"u", true, true, 2, [("sub-0", 7), ("sub-1", 8)], none, none, none⟩
        ⟨"MESSAGE", [("subscription", "sub-0"), ("message-id", "42")], none⟩
      = StepResult.mk
          ⟨"u", true, true, 2, [("sub-0", 7), ("sub-1", 8)], none, none, none⟩
          [Event.invoked 7
            ⟨"MESSAGE", [("subscription", "sub-0"), ("message-id", "42")], none⟩]
          none :=
  claim_c5_ids_and_routing.2.2 _ _ "sub-0" "42" 7 rfl rfl rfl rfl

/-- C8: the transmitted CONNECT frame carries exactly the headers built
by `connect`: `host` is the `host` argument defaulting to the target
URL, `accept-version` is the fixed "1.0,1.1,1.2", `heart-beat` is
"<ms>,<ms>" with both numbers equal and derived from the heartbeat
interval argument, `login`/`passcode` appear exactly when supplied (the
engine adds none when absent), caller-supplied values survive for every
other key, and the engine overwrites the protocol-mandated keys. -/
theorem claim_c8_connect_frame (st : ClientState)
    (login passcode host : Option String) (headers : Headers)
    (ccb ecb pcb : Option Nat) (p : Nat) :
    (connect st login passcode host headers ccb ecb pcb p).events =
      [Event.sent "CONNECT"
        (connectHeaders st.url login passcode host headers p) none] ∧
    dictLookup (connectHeaders st.url login passcode host headers p) "host"
      = some (host.getD st.url) ∧
    dictLookup (connectHeaders st.url login passcode host headers p)
      "accept-version" = some VERSIONS ∧
    dictLookup (connectHeaders st.url login passcode host headers p)
      "heart-beat"
      = some (Nat.repr (p * 1000) ++ "," ++ Nat.repr (p * 1000)) ∧
    (∀ l, login = some l →
      dictLookup (connectHeaders st.url login passcode host headers p)
        "login" = some l) ∧
    (login = none → dictLookup headers "login" = none →
      dictLookup (connectHeaders st.url login passcode host headers p)
        "login" = none) ∧
    (∀ pw, passcode = some pw →
      dictLookup (connectHeaders st.url login passcode host headers p)
        "passcode" = some pw) ∧
    (passcode = none → dictLookup headers "passcode" = none →
      dictLookup (connectHeaders st.url login passcode host headers p)
        "passcode" = none) ∧
    (∀ k, k ≠ "host" → k ≠ "accept-version" → k ≠ "heart-beat" →
      k ≠ "login" → k ≠ "passcode" →
      dictLookup (connectHeaders st.url login passcode host headers p) k
        = dictLookup headers k) := by
  refine ⟨rfl, ?_, ?_, ?_, ?_, ?_, ?_, ?_, ?_⟩
  · cases login <;> cases passcode <;>
      simp +decide [connectHeaders, dictLookup_dictSet_self,
        dictLookup_dictSet_ne]
  · cases login <;> cases passcode <;>
      simp +decide [connectHeaders, dictLookup_dictSet_self,
        dictLookup_dictSet_ne, VERSIONS]
  · cases login <;> cases passcode <;>
      simp +decide [connectHeaders, dictLookup_dictSet_self,
        dictLookup_dictSet_ne]
  · rintro l rfl
    cases passcode <;>
      simp +decide [connectHeaders, dictLookup_dictSet_self,
        dictLookup_dictSet_ne]
  · rintro rfl hnone
    cases passcode <;>
      simp +decide [connectHeaders, dictLookup_dictSet_self,
        dictLookup_dictSet_ne, hnone]
  · rintro pw rfl
    cases login <;>
      simp +decide [connectHeaders, dictLookup_dictSet_self,
        dictLookup_dictSet_ne]
  · rintro rfl hnone
    cases login <;>
      simp +decide [connectHeaders, dictLookup_dictSet_self,
        dictLookup_dictSet_ne, hnone]
  · intro k hk1 hk2 hk3 hk4 hk5
    cases login <;> cases passcode <;>
      simp +decide [connectHeaders, dictLookup_dictSet_ne, Ne.symm hk1,
        Ne.symm hk2, Ne.symm hk3, Ne.symm hk4, Ne.symm hk5]

theorem claim_c8_connect_frame_witness :
    dictLookup (connectHeaders "ws://u" (some "log") none none
      [("foo", "bar")] 2) "login" = some "log" ∧
    dictLookup (connectHeaders "ws://u" (some "log") none none
      [("foo", "bar")] 2) "passcode" = none ∧
    dictLookup (connectHeaders "ws://u" (some "log") none none
      [("foo", "bar")] 2) "foo" = some "bar" :=
  ⟨(claim_c8_connect_frame ⟨"ws://u", false, false, 0, [], none, none, none⟩
      (some "log") none none [("foo", "bar")] none none none 2).2.2.2.2.1
      "log" rfl,
   (claim_c8_connect_frame ⟨"ws://u", false, false, 0, [], none, none, none⟩
      (some "log") none none [("foo", "bar")] none none none 2).2.2.2.2.2.2.2.1
      rfl rfl,
   (claim_c8_connect_frame ⟨"ws://u", false, false, 0, [], none, none, none⟩
      (some "log") none none [("foo", "bar")] none none none 2).2.2.2.2.2.2.2.2
      "foo" (by decide) (by decide) (by decide) (by decide) (by decide)⟩

theorem unsubscribe_connected (st : ClientState) (id : String) :
    (unsubscribe st id).state.connected = st.connected := by
  unfold unsubscribe
  split <;> rfl

theorem unsubAll_connected (ids : List String) :
    ∀ st : ClientState, (unsubAll st ids).state.connected = st.connected := by
  induction ids with
  | nil => intro st; rfl
  | cons id rest ih =>
    intro st
    simp only [unsubAll]
    cases h : (unsubscribe st id).err with
    | some e => simpa using unsubscribe_connected st id
    | none =>
      simpa using (ih (unsubscribe st id).state).trans
        (unsubscribe_connected st id)

theorem dispatchFrame_connected (st : ClientState) (f : Frame)
    (h : f.command ≠ "CONNECTED") :
    (dispatchFrame st f).state.connected = st.connected := by
  rw [dispatchFrame, if_neg (by simp [h])]
  split
  · split
    · rfl
    · split
      · split <;> rfl
      · rfl
  · split
    · rfl
    · split
      · split <;> rfl
      · rfl

theorem disconnect_connected (st : ClientState) (cb : Option Nat)
    (headers : Headers) :
    (disconnect st cb headers).state.connected = false ∨
    (disconnect st cb headers).state.connected = st.connected := by
  simp only [disconnect]
  cases h : (unsubAll st (st.subscriptions.map Prod.fst)).err with
  | some e =>
    right
    simp only [h]
    exact unsubAll_connected _ st
  | none =>
    left
    simp [h, clean_up]

/-- C9: over all transitions of the client (transport lifecycle
callbacks, heartbeat handling, inbound frame dispatch, and the public
operations), the only transition that can turn `connected` from false to
true is the dispatch of an inbound CONNECTED frame; and a transport
close always leaves `connected` false. -/
theorem claim_c9_connected_transitions :
    (∀ (st : ClientState) (op : Op), (step st op).connected = true →
      st.connected = false →
      ∃ f, op = Op.opDispatch f ∧ f.command = "CONNECTED") ∧
    (∀ st : ClientState, (step st Op.opOnClose).connected = false) := by
  constructor
  · intro st op h1 h2
    cases op with
    | opDispatch f =>
      refine ⟨f, rfl, ?_⟩
      by_contra hcmd
      have hfin : (step st (Op.opDispatch f)).connected = false :=
        (dispatchFrame_connected st f hcmd).trans h2
      rw [hfin] at h1
      exact absurd h1 Bool.false_ne_true
    | opOnOpen =>
      have hfin : (step st Op.opOnOpen).connected = false := h2
      rw [hfin] at h1
      exact absurd h1 Bool.false_ne_true
    | opOnError =>
      have hfin : (step st Op.opOnError).connected = false := h2
      rw [hfin] at h1
      exact absurd h1 Bool.false_ne_true
    | opOnClose =>
      have hfin : (step st Op.opOnClose).connected = false := rfl
      rw [hfin] at h1
      exact absurd h1 Bool.false_ne_true
    | opHeartbeat =>
      have hpres : (step st Op.opHeartbeat).connected = st.connected := by
        cases hp : st.pingCallback <;> simp [step, on_message, hp]
      have hfin := hpres.trans h2
      rw [hfin] at h1
      exact absurd h1 Bool.false_ne_true
    | opConnect login passcode host headers ccb ecb pcb p =>
      have hfin : (step st
          (Op.opConnect login passcode host headers ccb ecb pcb p)).connected
          = false := h2
      rw [hfin] at h1
      exact absurd h1 Bool.false_ne_true
    | opDisconnect cb headers =>
      rcases disconnect_connected st cb headers with h | h
      · have hfin : (step st (Op.opDisconnect cb headers)).connected
            = false := h
        rw [hfin] at h1
        exact absurd h1 Bool.false_ne_true
      · have hfin : (step st (Op.opDisconnect cb headers)).connected
            = false := h.trans h2
        rw [hfin] at h1
        exact absurd h1 Bool.false_ne_true
    | opSend d headers body =>
      have hfin : (step st (Op.opSend d headers body)).connected = false := h2
      rw [hfin] at h1
      exact absurd h1 Bool.false_ne_true
    | opSubscribe d cb headers =>
      have hfin : (step st (Op.opSubscribe d cb headers)).connected
          = false := h2
      rw [hfin] at h1
      exact absurd h1 Bool.false_ne_true
    | opUnsubscribe id =>
      have hfin : (step st (Op.opUnsubscribe id)).connected = false :=
        (unsubscribe_connected st id).trans h2
      rw [hfin] at h1
      exact absurd h1 Bool.false_ne_true
    | opAck mid sub headers =>
      have hfin : (step st (Op.opAck mid sub headers)).connected = false := h2
      rw [hfin] at h1
      exact absurd h1 Bool.false_ne_true
    | opNack mid sub headers =>
      have hfin : (step st (Op.opNack mid sub headers)).connected
          = false := h2
      rw [hfin] at h1
      exact absurd h1 Bool.false_ne_true
  · intro st
    rfl

theorem claim_c9_connected_transitions_witness :
    ∃ f, Op.opDispatch (Frame.mk "CONNECTED" [] none) = Op.opDispatch f ∧
      f.command = "CONNECTED" :=
  claim_c9_connected_transitions.1
    ⟨"u", true, false, 0, [], none, none, none⟩
    (Op.opDispatch (Frame.mk "CONNECTED" [] none)) (by decide) rfl

/-- C10: each public operation taking a caller-supplied headers mapping
mutates that mapping: after `subscribe` it additionally contains the
`id` and `destination` keys (other keys untouched); after `send` it
contains `destination`; after `ack`/`nack` it contains `message-id` and
`subscription`, overwriting any caller-supplied values for those keys;
after `connect` it contains `host`, `accept-version` and `heart-beat`. -/
theorem claim_c10_header_mutation (headers : Headers) :
    (∀ c d, dictContains (subscribeHeaders c d headers) "id" = true ∧
      dictLookup (subscribeHeaders c d headers) "destination" = some d ∧
      (∀ k, k ≠ "id" → k ≠ "destination" →
        dictLookup (subscribeHeaders c d headers) k
          = dictLookup headers k)) ∧
    (∀ d, dictLookup (sendHeaders d headers) "destination" = some d ∧
      (∀ k, k ≠ "destination" →
        dictLookup (sendHeaders d headers) k = dictLookup headers k)) ∧
    (∀ mid sub,
      dictLookup (ackHeaders mid sub headers) "message-id" = some mid ∧
      dictLookup (ackHeaders mid sub headers) "subscription" = some sub ∧
      (∀ k, k ≠ "message-id" → k ≠ "subscription" →
        dictLookup (ackHeaders mid sub headers) k = dictLookup headers k)) ∧
    (∀ url login passcode host p,
      (dictLookup (connectHeaders url login passcode host headers p)
        "host").isSome = true ∧
      (dictLookup (connectHeaders url login passcode host headers p)
        "accept-version").isSome = true ∧
      (dictLookup (connectHeaders url login passcode host headers p)
        "heart-beat").isSome = true) := by
  refine ⟨?_, ?_, ?_, ?_⟩
  · intro c d
    refine ⟨?_, ?_, ?_⟩
    · cases hid : dictContains headers "id" with
      | true =>
        simp only [subscribeHeaders, hid, if_true]
        simpa +decide [dictContains, dictLookup_dictSet_ne] using hid
      | false =>
        simp only [subscribeHeaders, hid, if_false]
        simp +decide [dictContains, dictLookup_dictSet_ne,
          dictLookup_dictSet_self]
    · cases hid : dictContains headers "id" <;>
        simp only [subscribeHeaders, hid, if_true, if_false] <;>
        simp [dictLookup_dictSet_self]
    · intro k hk1 hk2
      cases hid : dictContains headers "id" <;>
        simp only [subscribeHeaders, hid, if_true, if_false] <;>
        simp [dictLookup_dictSet_ne, Ne.symm hk1, Ne.symm hk2]
  · intro d
    refine ⟨dictLookup_dictSet_self _ _ _, ?_⟩
    intro k hk
    exact dictLookup_dictSet_ne _ _ _ _ (Ne.symm hk)
  · intro mid sub
    refine ⟨?_, dictLookup_dictSet_self _ _ _, ?_⟩
    · simp +decide [ackHeaders, dictLookup_dictSet_ne,
        dictLookup_dictSet_self]
    · intro k hk1 hk2
      simp [ackHeaders, dictLookup_dictSet_ne, Ne.symm hk1, Ne.symm hk2]
  · intro url login passcode host p
    refine ⟨?_, ?_, ?_⟩ <;>
      cases login <;> cases passcode <;>
      simp +decide [connectHeaders, dictLookup_dictSet_self,
        dictLookup_dictSet_ne]

theorem claim_c10_header_mutation_witness :
    dictContains (subscribeHeaders 0 "dst" [("x", "1")]) "id" = true ∧
    dictLookup (subscribeHeaders 0 "dst" [("x", "1")]) "x"
      = dictLookup [("x", "1")] "x" ∧
    dictLookup (ackHeaders "42" "sub-0" [("message-id", "old")])
      "message-id" = some "42" :=
  ⟨((claim_c10_header_mutation [("x", "1")]).1 0 "dst").1,
   ((claim_c10_header_mutation [("x", "1")]).1 0 "dst").2.2 "x"
     (by decide) (by decide),
   ((claim_c10_header_mutation [("message-id", "old")]).2.2.1 "42"
     "sub-0").1⟩

/-- C1: when the transport never signals open/error/close, `connect`
with a positive `timeout` of `T` ms raises the timeout error rather than
returning, after at most one extra 250 ms poll beyond `T` (the loop
raises with `T < total_ms ≤ T + 250`); with `timeout = 0` the wait never
raises, continuing indefinitely until `opened` becomes true. -/
theorem claim_c1_connect_timeout :
    (∀ T fuel, 0 < T → T < 250 * fuel →
      ∃ t, connectWait T fuel 0 = some t ∧ T < t ∧ t ≤ T + 250) ∧
    (∀ fuel total, connectWait 0 fuel total = none) := by
  constructor
  · intro T fuel hT hf
    exact connectWait_raises T hT fuel 0 (by omega) (by omega)
  · exact connectWait_zero_timeout

theorem claim_c1_connect_timeout_witness :
    ∃ t, connectWait 500 3 0 = some t ∧ 500 < t ∧ t ≤ 500 + 250 :=
  claim_c1_connect_timeout.1 500 3 (by decide) (by decide)

/-- C3 counterexample: on a client where no heartbeat callback is
registered (`pingCallback` is `None`), dispatching the heartbeat message
`"\n"` raises (the Python `TypeError` from calling `None`), refuting the
claim that the absence of a callback is not an error. -/
theorem claim_c3_counterexample :
    (on_message (ClientState.init "ws://example") "\n").err ≠ none := by
  decide

/-- C3 (amended): an inbound message equal to exactly `"\n"` is
delivered to the registered heartbeat callback; but when no heartbeat
callback is registered, dispatch raises a `TypeError` (calling `None`)
instead of silently dropping the heartbeat. -/
theorem claim_c3_heartbeat_dispatch (st : ClientState) :
    (∀ cb, st.pingCallback = some cb →
      on_message st "\n" = StepResult.mk st [Event.pingCb cb "\n"] none) ∧
    (st.pingCallback = none →
      on_message st "\n" = StepResult.mk st []
        (some "TypeError: NoneType object is not callable")) := by
  constructor
  · intro cb hcb
    simp [on_message, hcb]
  · intro hcb
    simp [on_message, hcb]

theorem claim_c3_heartbeat_dispatch_witness :
    on_message ⟨"u", false, false, 0, [], none, none, some 5⟩ "\n"
      = StepResult.mk ⟨"u", false, false, 0, [], none, none, some 5⟩
          [Event.pingCb 5 "\n"] none :=
  (claim_c3_heartbeat_dispatch _).1 5 rfl

/-- C4: the generic frame parse is applied only to messages other than
the single newline: whenever `_on_message` hands a message to
`Frame.unmarshall_single` (producing a `parsed` event and a `Frame`),
that message is not `"\n"`. -/
theorem claim_c4_heartbeat_never_unmarshalled (st : ClientState)
    (message : String) (f : Frame)
    (hf : Event.parsed f ∈ (on_message st message).events) :
    message ≠ "\n" := by
  intro hm
  subst hm
  cases hcb : st.pingCallback with
  | some cb => simp [on_message, hcb] at hf
  | none => simp [on_message, hcb] at hf

theorem claim_c4_heartbeat_never_unmarshalled_witness :
    ("CONNECTED" : String) ≠ "\n" :=
  claim_c4_heartbeat_never_unmarshalled
    ⟨"u", false, false, 0, [], none, none, none⟩ "CONNECTED"
    (Frame.unmarshall_single "CONNECTED") (by decide)

/-- C6: a dispatched MESSAGE frame whose `subscription` header holds an
id with no registered callback invokes no subscriber callback, does not
raise, and leaves the state (registry and connection flags) unchanged;
the frame is only reported as an unhandled-message diagnostic. -/
theorem claim_c6_unknown_subscription (st : ClientState) (f : Frame)
    (s : String) (hcmd : f.command = "MESSAGE")
    (hs : dictLookup f.headers "subscription" = some s)
    (hnone : dictLookup st.subscriptions s = none) :
    dispatchFrame st f = StepResult.mk st [Event.unhandled f] none := by
  simp [dispatchFrame, hcmd, hs, hnone]

theorem claim_c6_unknown_subscription_witness :
    dispatchFrame ⟨"u", true, true, 1, [("sub-0", 3)], none, none, none⟩
        ⟨"MESSAGE", [("subscription", "sub-1")], none⟩
      = StepResult.mk ⟨"u", true, true, 1, [("sub-0", 3)], none, none, none⟩
          [Event.unhandled ⟨"MESSAGE", [("subscription", "sub-1")], none⟩]
          none :=
  claim_c6_unknown_subscription _ _ "sub-1" rfl rfl rfl

/-- C7: `unsubscribe(id)` on an id absent from the registry fails (the
`KeyError` from `del self.subscriptions[id]`, the failure the spec names
`UnknownSubscription`) with no UNSUBSCRIBE frame transmitted and the
registry unchanged; on a present id it removes exactly that entry and
transmits an UNSUBSCRIBE frame whose `id` header equals it. -/
theorem claim_c7_unsubscribe (st : ClientState) (id : String) :
    (dictLookup st.subscriptions id = none →
      unsubscribe st id = StepResult.mk st [] (some "KeyError")) ∧
    ((st.subscriptions.map Prod.fst).Nodup → ∀ cb,
      dictLookup st.subscriptions id = some cb →
      unsubscribe st id =
        StepResult.mk { st with subscriptions := dictDel st.subscriptions id }
          [Event.sent "UNSUBSCRIBE" [("id", id)] none] none ∧
      dictLookup (dictDel st.subscriptions id) id = none ∧
      ∀ k, k ≠ id →
        dictLookup (dictDel st.subscriptions id) k
          = dictLookup st.subscriptions k) := by
  constructor
  · intro h
    simp [unsubscribe, dictContains, h]
  · intro hnd cb h
    refine ⟨by simp [unsubscribe, dictContains, h], ?_, ?_⟩
    · exact dictLookup_dictDel_self _ _ hnd
    · exact fun k hk => dictLookup_dictDel_ne _ _ _ (Ne.symm hk)

theorem claim_c7_unsubscribe_witness :
    unsubscribe ⟨"u", true, true, 1, [("sub-0", 3)], none, none, none⟩ "sub-9"
      = StepResult.mk ⟨"u", true, true, 1, [("sub-0", 3)], none, none, none⟩
          [] (some "KeyError") ∧
    unsubscribe ⟨"u", true, true, 1, [("sub-0", 3)], none, none, none⟩ "sub-0"
      = StepResult.mk ⟨"u", true, true, 1, [], none, none, none⟩
          [Event.sent "UNSUBSCRIBE" [("id", "sub-0")] none] none :=
  ⟨(claim_c7_unsubscribe _ "sub-9").1 rfl,
   ((claim_c7_unsubscribe ⟨"u", true, true, 1, [("sub-0", 3)], none, none, none⟩
      "sub-0").2 (by decide) 3 rfl).1⟩

end StompWs
